import Mathlib

/-!
Verification of the document-loader module (`loaders.py`) of the
NotebookLM-clone repository: four loader classes (`AudioLoader`,
`TextDocumentLoader`, `WebpageLoader`, `YoutubeTranscriptLoader`) plus the
YouTube caption fallback / translation pipeline.

External collaborators (the caption-listing service, the generative model,
the page fetcher, the filesystem sink) are modelled as explicit environment
records; network-bound calls are recorded in an event trace so that claims
of the form "X is never invoked" are provable.  Python string primitives
(`str.strip`, `str.split`, `str.join`, `str.startswith`, `str.endswith`)
are modelled by structurally recursive Lean functions so every definition
evaluates in the kernel.
-/

/-! ## Python string primitives -/

/-- Characters-level prefix test: `startswithChars p s` is true when the
character list `p` is an initial segment of `s`. -/
def startswithChars : List Char → List Char → Bool
  | [], _ => true
  | _ :: _, [] => false
  | p :: ps, c :: cs => p == c && startswithChars ps cs

/-- Python `s.startswith(pre)` for a single pattern string. -/
def pyStartsWith (s pre : String) : Bool := startswithChars pre.data s.data

/-- Python `s.endswith(suf)`. -/
def pyEndsWith (s suf : String) : Bool :=
  startswithChars suf.data.reverse s.data.reverse

/-- Python `sep.join(xs)`. -/
def pyJoin (sep : String) : List String → String
  | [] => ""
  | [x] => x
  | x :: xs => x ++ sep ++ pyJoin sep xs

/-- Helper for `pySplit`: splits a character list at every occurrence of
`sep`, accumulating the current chunk in reverse. -/
def splitCharAux (sep : Char) : List Char → List Char → List (List Char)
  | [], acc => [acc.reverse]
  | c :: cs, acc =>
    if c == sep then acc.reverse :: splitCharAux sep cs []
    else splitCharAux sep cs (c :: acc)

/-- Python `s.split(sep)` for a single separator character; on the empty
string it yields `[""]`, exactly as Python does. -/
def pySplit (s : String) (sep : Char) : List String :=
  (splitCharAux sep s.data []).map (fun l => ⟨l⟩)

/-- Python `s.strip()`: drop leading and trailing whitespace. -/
def pyStrip (s : String) : String :=
  ⟨((s.data.dropWhile Char.isWhitespace).reverse.dropWhile Char.isWhitespace).reverse⟩

/-- Python truthiness of an optional string (`None` and `""` are falsy). -/
def pyTruthyStr : Option String → Bool
  | none => false
  | some s => !s.isEmpty

/-- Python `a or b` on optional strings: `a` when truthy, else `b`. -/
def pyOrStr (a b : Option String) : Option String :=
  if pyTruthyStr a then a else b

/-- Python falsiness of an optional list (`None` and `[]` are falsy):
models `if not transcript:` in `YoutubeTranscriptLoader.load`. -/
def pyFalsyOptList : Option (List α) → Bool
  | none => true
  | some l => l.isEmpty

/-! ## Error taxonomy (`loaders.py` lines 34-40) -/

/-- The two exception kinds raised by the loaders: `DocumentLoaderError`
and `TranscriptionError`, each carrying a message string. -/
inductive LoadError
  | documentLoaderError (msg : String)
  | transcriptionError (msg : String)
deriving DecidableEq, Repr

/-! ## Shared document shape -/

/-- A document produced by an external loader collaborator; only its
`page_content` is ever inspected by this module. -/
structure Doc where
  page_content : String
deriving DecidableEq, Repr

/-! ## YoutubeTranscriptLoader: data model of the caption service -/

/-- A transcript segment as returned by `transcript.fetch()`:
`{'text': ..., 'start': ..., 'duration': ...}`.  The timing payloads are
optional because the segments rebuilt after translation carry none. -/
structure Segment where
  text : String
  start : Option Int := none
  duration : Option Int := none
deriving DecidableEq, Repr

/-- A caption track in the service's track list: a language code, whether
it is auto-generated, and the segments its `fetch()` returns. -/
structure CaptionTrack where
  language_code : String
  is_generated : Bool
  segments : List Segment
deriving DecidableEq, Repr

/-- Outcome of `YouTubeTranscriptApi.list_transcripts(video_id)`: the
track list on success, or one of the exception kinds caught in
`_fetch_transcript` (`TranscriptsDisabled`, `NoTranscriptFound`, or any
other exception). -/
inductive ListTranscriptsResult
  | disabled
  | noTranscriptFound
  | unexpectedError
  | ok (tracks : List CaptionTrack)
deriving DecidableEq, Repr

/-- `TranscriptList.find_transcript(language_codes)` of the
youtube-transcript-api collaborator: for each language code in order,
a manually created track is preferred over a generated one; `none`
models the `NoTranscriptFound` exception. -/
def find_transcript (tracks : List CaptionTrack) : List String → Option CaptionTrack
  | [] => none
  | l :: rest =>
    match tracks.find? (fun t => t.language_code == l && !t.is_generated) with
    | some t => some t
    | none =>
      match tracks.find? (fun t => t.language_code == l && t.is_generated) with
      | some t => some t
      | none => find_transcript tracks rest

/-- `TranscriptList.find_generated_transcript(language_codes)`: like
`find_transcript` but searching generated tracks only. -/
def find_generated_transcript (tracks : List CaptionTrack) : List String → Option CaptionTrack
  | [] => none
  | l :: rest =>
    match tracks.find? (fun t => t.language_code == l && t.is_generated) with
    | some t => some t
    | none => find_generated_transcript tracks rest

/-- The fixed candidate list passed to `find_generated_transcript` in
`_handle_non_english_transcript` (`loaders.py` line 163). -/
def candidate_languages : List String := ["en", "ja", "ko", "es", "fr", "de", "hi"]

/-- Environment of `YoutubeTranscriptLoader`: the three external
collaborators it calls.  `extract_video_id` models `pytube`'s
`extract.video_id` (which may raise); `list_transcripts` models the
caption service keyed by video id; `generate_content` models
`gemini.generate_content` followed by `response.text` (any exception in
that pair is a single failure). -/
structure YtEnv where
  extract_video_id : String → Except Unit String
  list_transcripts : String → ListTranscriptsResult
  generate_content : String → Except Unit String

/-- Network-bound calls made during one `load`, in order. -/
inductive YtEvent
  | listTranscripts (video_id : String)
  | generateContent (prompt : String)
deriving DecidableEq, Repr

/-- `YoutubeTranscriptLoader._get_video_id` (lines 136-141): delegate to
the extractor, swallowing any exception to `None`. -/
def get_video_id (env : YtEnv) (url : String) : Option String :=
  match env.extract_video_id url with
  | .ok v => some v
  | .error _ => none

/-- The instruction prefix of the translation prompt (line 175). -/
def translation_instruction : String := "Translate the following transcript into English:\n"

/-- `YoutubeTranscriptLoader._translate_transcript` (lines 172-183): join
the segment texts with single spaces, prompt the generative model, strip
the response, split it on line breaks, keep only non-blank lines, and
rebuild segments with no timing fields; any failure yields `None`.  Also
returns the trace of `generate_content` calls made. -/
def translate_transcript (env : YtEnv) (transcript : List Segment) :
    Option (List Segment) × List YtEvent :=
  let full_text := pyJoin " " (transcript.map (·.text))
  let prompt := translation_instruction ++ full_text
  match env.generate_content prompt with
  | .error _ => (none, [.generateContent prompt])
  | .ok raw =>
    let translated_text := pyStrip raw
    (some (((pySplit translated_text '\n').filter
        (fun line => !(pyStrip line).isEmpty)).map
        (fun line => { text := line })),
     [.generateContent prompt])

/-- `YoutubeTranscriptLoader._handle_non_english_transcript`
(lines 160-170): look for a generated track among the fixed candidate
languages; found → translate its segments; not found (the service raises
`NoTranscriptFound`, caught by the blanket handler) → `None`. -/
def handle_non_english_transcript (env : YtEnv) (tracks : List CaptionTrack) :
    Option (List Segment) × List YtEvent :=
  match find_generated_transcript tracks candidate_languages with
  | none => (none, [])
  | some t => translate_transcript env t.segments

/-- `YoutubeTranscriptLoader._fetch_transcript` (lines 143-158): list the
tracks, prefer an English track of any origin, otherwise fall back to the
generated-track translation path; every service exception is swallowed to
`None`. -/
def fetch_transcript (env : YtEnv) (video_id : String) :
    Option (List Segment) × List YtEvent :=
  match env.list_transcripts video_id with
  | .ok tracks =>
    match find_transcript tracks ["en"] with
    | some t => (some t.segments, [.listTranscripts video_id])
    | none =>
      let r := handle_non_english_transcript env tracks
      (r.1, .listTranscripts video_id :: r.2)
  | .disabled => (none, [.listTranscripts video_id])
  | .noTranscriptFound => (none, [.listTranscripts video_id])
  | .unexpectedError => (none, [.listTranscripts video_id])

/-- The `{'transcript': ...}` result of `YoutubeTranscriptLoader.load`. -/
structure YtResult where
  transcript : String
deriving DecidableEq, Repr

/-- `YoutubeTranscriptLoader.load` (lines 124-134): raise
`DocumentLoaderError("Invalid YouTube URL")` when the extracted id is
falsy; raise `TranscriptionError("No transcript available")` when the
fetched transcript is falsy (`None` or the empty list); otherwise join
the segment texts with single spaces. -/
def YoutubeTranscriptLoader.load (env : YtEnv) (video_url : String) :
    Except LoadError YtResult × List YtEvent :=
  let video_id := get_video_id env video_url
  if !pyTruthyStr video_id then
    (.error (.documentLoaderError "Invalid YouTube URL"), [])
  else
    let r := fetch_transcript env (video_id.getD "")
    if pyFalsyOptList r.1 then
      (.error (.transcriptionError "No transcript available"), r.2)
    else
      (.ok { transcript := pyJoin " " ((r.1.getD []).map (·.text)) }, r.2)

/-! ## WebpageLoader -/

/-- Environment of `WebpageLoader`: `WebBaseLoader(url).load()`, which
either yields a document list or raises (message carried in the error). -/
structure WebEnv where
  fetch : String → Except String (List Doc)

/-- The `{'content': ...}` result of `WebpageLoader.load`. -/
structure WebResult where
  content : String
deriving DecidableEq, Repr

/-- `WebpageLoader.load` (lines 100-115), with the sink file
(`output.txt`) content threaded explicitly (`none` = file absent) and a
trace of fetched URLs.  The URL-scheme check comes first; on success the
stripped content followed by two newlines replaces the sink content
(truncate mode); fetch failure (including an empty document list, where
`docs[0]` raises `IndexError`) is wrapped as `DocumentLoaderError`. -/
def WebpageLoader.load (env : WebEnv) (url : String) (sink : Option String) :
    Except LoadError WebResult × Option String × List String :=
  if !(pyStartsWith url "http://" || pyStartsWith url "https://") then
    (.error (.documentLoaderError "Invalid URL format"), sink, [])
  else
    match env.fetch url with
    | .error e => (.error (.documentLoaderError ("Error loading webpage: " ++ e)), sink, [url])
    | .ok [] =>
      (.error (.documentLoaderError "Error loading webpage: list index out of range"), sink, [url])
    | .ok (d :: _) =>
      let content := pyStrip d.page_content
      (.ok { content := content }, some (content ++ "\n\n"), [url])

/-! ## AudioLoader -/

/-- The constructed `AudioLoader` object: it stores the resolved key. -/
structure AudioLoader where
  api_key : Option String
deriving DecidableEq, Repr

/-- `AudioLoader.__init__` (lines 57-61): resolve the key as
`api_key or os.getenv("ASSEMBLY_API_KEY")` and raise
`DocumentLoaderError("Assembly AI API key not found")` when the result is
falsy.  `assembly_env_key` is the value of the `ASSEMBLY_API_KEY`
configuration (`none` = absent). -/
def AudioLoader.init (api_key assembly_env_key : Option String) :
    Except LoadError AudioLoader :=
  let key := pyOrStr api_key assembly_env_key
  if !pyTruthyStr key then
    .error (.documentLoaderError "Assembly AI API key not found")
  else
    .ok { api_key := key }

/-! ## TextDocumentLoader -/

/-- Environment of `TextDocumentLoader`: the two parsing collaborators,
`PyPDFLoader(path).load_and_split()` and `TextLoader(path).load()`, each
either yielding documents or raising (message carried in the error). -/
structure DocEnv where
  pdf_load_and_split : String → Except String (List Doc)
  text_loader_load : String → Except String (List Doc)

/-- The per-mode result of `TextDocumentLoader.load`:
`{'pages': ..., 'page_count': ...}` or `{'content': ...}`. -/
inductive TextDocResult
  | pdfResult (pages : List Doc) (page_count : Nat)
  | textResult (content : List Doc)
deriving DecidableEq, Repr

/-- `TextDocumentLoader.load` (lines 79-96): dispatch on the `.pdf`
filename suffix; the paginated branch returns the pages with their count,
the other branch returns the whole document list; any underlying failure
is wrapped as `DocumentLoaderError` with the original message embedded. -/
def TextDocumentLoader.load (env : DocEnv) (file_path : String) :
    Except LoadError TextDocResult :=
  if pyEndsWith file_path ".pdf" then
    match env.pdf_load_and_split file_path with
    | .ok pages => .ok (.pdfResult pages pages.length)
    | .error e => .error (.documentLoaderError ("Error loading document: " ++ e))
  else
    match env.text_loader_load file_path with
    | .ok data => .ok (.textResult data)
    | .error e => .error (.documentLoaderError ("Error loading document: " ++ e))

/-! ## Decidable equality for results -/

deriving instance DecidableEq for Except

/-! ## Concrete sample environments used by witnesses and counterexamples -/

/-- Sample English caption track used to exercise the direct path. -/
def c1Track : CaptionTrack :=
  { language_code := "en", is_generated := false,
    segments := [{ text := "hello", start := some 0, duration := some 2 },
                 { text := "world", start := some 2, duration := some 2 }] }

/-- Sample environment whose caption service lists only `c1Track`. -/
def c1Env : YtEnv :=
  { extract_video_id := fun _ => .ok "dQw4w9WgXcQ"
    list_transcripts := fun _ => .ok [c1Track]
    generate_content := fun _ => .error () }

/-- Environment for the C1 counterexample: the only track is English but
its fetched segment list is empty. -/
def c1CexEnv : YtEnv :=
  { extract_video_id := fun _ => .ok "vid00000001"
    list_transcripts := fun _ =>
      .ok [{ language_code := "en", is_generated := true, segments := [] }]
    generate_content := fun _ => .error () }

/-- Sample generated Spanish track used to exercise the translation path. -/
def c2Track : CaptionTrack :=
  { language_code := "es", is_generated := true,
    segments := [{ text := "hola mundo", start := some 0, duration := some 2 },
                 { text := "adios", start := some 2, duration := some 2 }] }

/-- Environment whose caption service lists only `c2Track` and whose
generative model answers with a two-line translation. -/
def c2Env : YtEnv :=
  { extract_video_id := fun _ => .ok "vidES000001"
    list_transcripts := fun _ => .ok [c2Track]
    generate_content := fun _ => .ok "Hello world\n\nGoodbye" }

/-- Environment for the C2 counterexample: the generative model succeeds
but returns whitespace only. -/
def c2CexEnv : YtEnv :=
  { extract_video_id := fun _ => .ok "vidJA000001"
    list_transcripts := fun _ =>
      .ok [{ language_code := "ja", is_generated := true,
             segments := [{ text := "konnichiwa", start := some 0, duration := some 1 }] }]
    generate_content := fun _ => .ok "  " }

/-- Track listed by `c2CexEnv`. -/
def c2CexTrack : CaptionTrack :=
  { language_code := "ja", is_generated := true,
    segments := [{ text := "konnichiwa", start := some 0, duration := some 1 }] }

/-- Environment where the caption service reports captions disabled. -/
def c3DisabledEnv : YtEnv :=
  { extract_video_id := fun _ => .ok "vidDIS00001"
    list_transcripts := fun _ => .disabled
    generate_content := fun _ => .error () }

/-- Environment whose only track is a manual French track: neither the
English search nor the generated-track search succeeds. -/
def c3NoTrackEnv : YtEnv :=
  { extract_video_id := fun _ => .ok "vidFR000001"
    list_transcripts := fun _ =>
      .ok [{ language_code := "fr", is_generated := false,
             segments := [{ text := "bonjour", start := some 0, duration := some 1 }] }]
    generate_content := fun _ => .error () }

/-- Environment with a generated Korean track whose translation call
fails. -/
def c3TransFailEnv : YtEnv :=
  { extract_video_id := fun _ => .ok "vidKO000001"
    list_transcripts := fun _ =>
      .ok [{ language_code := "ko", is_generated := true,
             segments := [{ text := "annyeong", start := some 0, duration := some 1 }] }]
    generate_content := fun _ => .error () }

/-- Environment whose id extractor raises on every URL. -/
def c4RaiseEnv : YtEnv :=
  { extract_video_id := fun _ => .error ()
    list_transcripts := fun _ => .unexpectedError
    generate_content := fun _ => .error () }

/-- Environment whose id extractor yields the empty identifier. -/
def c4EmptyEnv : YtEnv :=
  { extract_video_id := fun _ => .ok ""
    list_transcripts := fun _ => .unexpectedError
    generate_content := fun _ => .error () }

/-- Web environment used by the C5 witness. -/
def c5WebEnv : WebEnv :=
  { fetch := fun _ => .ok [{ page_content := " some page " }] }

/-- Web environment serving a first page. -/
def c6WebEnvA : WebEnv :=
  { fetch := fun _ => .ok [{ page_content := " first page " }] }

/-- Web environment serving a second, different page. -/
def c6WebEnvB : WebEnv :=
  { fetch := fun _ => .ok [{ page_content := "second page" }] }

/-- Document environment whose parsers both succeed. -/
def c8DocEnv : DocEnv :=
  { pdf_load_and_split := fun _ => .ok [{ page_content := "p1" }, { page_content := "p2" }]
    text_loader_load := fun _ => .ok [{ page_content := "plain text" }] }

/-- Document environment whose parsers both fail. -/
def c8FailDocEnv : DocEnv :=
  { pdf_load_and_split := fun _ => .error "bad pdf"
    text_loader_load := fun _ => .error "bad text" }

/-- Environment whose generative model answers with a two-line text. -/
def c9OkEnv : YtEnv :=
  { extract_video_id := fun _ => .ok "vidTR000001"
    list_transcripts := fun _ => .unexpectedError
    generate_content := fun _ => .ok " Hello\nWorld " }

/-- Environment whose generative model fails. -/
def c9FailEnv : YtEnv :=
  { extract_video_id := fun _ => .ok "vidTR000002"
    list_transcripts := fun _ => .unexpectedError
    generate_content := fun _ => .error () }

/-- Environment whose only track is English with zero segments. -/
def c10ZeroSegEnv : YtEnv :=
  { extract_video_id := fun _ => .ok "vidZERO0001"
    list_transcripts := fun _ =>
      .ok [{ language_code := "en", is_generated := false, segments := [] }]
    generate_content := fun _ => .error () }

/-- Environment with a generated Hindi track whose translation comes back
as blank lines only. -/
def c10BlankEnv : YtEnv :=
  { extract_video_id := fun _ => .ok "vidHI000001"
    list_transcripts := fun _ =>
      .ok [{ language_code := "hi", is_generated := true,
             segments := [{ text := "namaste", start := some 0, duration := some 1 }] }]
    generate_content := fun _ => .ok "\n \n" }

/-- Track listed by `c10BlankEnv`. -/
def c10BlankTrack : CaptionTrack :=
  { language_code := "hi", is_generated := true,
    segments := [{ text := "namaste", start := some 0, duration := some 1 }] }

/-! ## Helper lemmas about the track-search functions -/

/-- If the track list has an English track of any origin, `find_transcript`
with `["en"]` finds an English track. -/
theorem find_transcript_en_some (tracks : List CaptionTrack)
    (h : (tracks.any fun t => t.language_code == "en") = true) :
    ∃ t, find_transcript tracks ["en"] = some t ∧ t.language_code = "en" := by
  rw [List.any_eq_true] at h
  obtain ⟨t0, hmem, hlang⟩ := h
  rw [beq_iff_eq] at hlang
  cases hm : tracks.find? (fun t => t.language_code == "en" && !t.is_generated) with
  | some t =>
    have hp := List.find?_some hm
    rw [Bool.and_eq_true, beq_iff_eq] at hp
    exact ⟨t, by simp [find_transcript, hm], hp.1⟩
  | none =>
    have hall := List.find?_eq_none.mp hm
    have hgen : t0.is_generated = true := by
      have := hall t0 hmem
      simp [hlang] at this
      exact this
    have hsome : (tracks.find? (fun t => t.language_code == "en" && t.is_generated)).isSome := by
      rw [List.find?_isSome]
      exact ⟨t0, hmem, by simp [hlang, hgen]⟩
    cases hm2 : tracks.find? (fun t => t.language_code == "en" && t.is_generated) with
    | none => rw [hm2] at hsome; simp at hsome
    | some t =>
      have hp := List.find?_some hm2
      rw [Bool.and_eq_true, beq_iff_eq] at hp
      exact ⟨t, by simp [find_transcript, hm, hm2], hp.1⟩

theorem find_transcript_en_none (tracks : List CaptionTrack)
    (h : (tracks.any fun t => t.language_code == "en") = false) :
    find_transcript tracks ["en"] = none := by
  rw [List.any_eq_false] at h
  have h1 : tracks.find? (fun t => t.language_code == "en" && !t.is_generated) = none := by
    rw [List.find?_eq_none]
    intro t ht
    have := h t ht
    simp only [Bool.and_eq_true, not_and] at this ⊢
    intro hb _; exact this hb
  have h2 : tracks.find? (fun t => t.language_code == "en" && t.is_generated) = none := by
    rw [List.find?_eq_none]
    intro t ht
    have := h t ht
    simp only [Bool.and_eq_true, not_and] at this ⊢
    intro hb _; exact this hb
  simp [find_transcript, h1, h2]

theorem find_generated_some (tracks : List CaptionTrack) (langs : List String)
    (h : (tracks.any fun t => t.is_generated && langs.contains t.language_code) = true) :
    ∃ t, find_generated_transcript tracks langs = some t ∧ t.is_generated = true ∧
      langs.contains t.language_code = true := by
  induction langs with
  | nil =>
    rw [List.any_eq_true] at h
    obtain ⟨t0, _, ht0⟩ := h
    simp at ht0
  | cons l rest ih =>
    cases hm : tracks.find? (fun t => t.language_code == l && t.is_generated) with
    | some t =>
      have hp := List.find?_some hm
      rw [Bool.and_eq_true, beq_iff_eq] at hp
      refine ⟨t, by simp [find_generated_transcript, hm], hp.2, ?_⟩
      simp [List.contains, hp.1]
    | none =>
      have hall := List.find?_eq_none.mp hm
      rw [List.any_eq_true] at h
      obtain ⟨t0, hmem, ht0⟩ := h
      rw [Bool.and_eq_true] at ht0
      have hnotl : (t0.language_code == l) = false := by
        by_contra hne
        rw [Bool.not_eq_false] at hne
        exact hall t0 hmem (by simp [hne, ht0.1])
      have hrest : rest.contains t0.language_code = true := by
        have := ht0.2
        simp only [List.contains_cons] at this
        rcases Bool.or_eq_true_iff.mp this with hc | hc
        · exact absurd hc (by simp [hnotl])
        · exact hc
      obtain ⟨t, hft, hg, hc⟩ := ih (by
        rw [List.any_eq_true]
        refine ⟨t0, hmem, ?_⟩
        simp only [Bool.and_eq_true]
        exact ⟨ht0.1, hrest⟩)
      refine ⟨t, by simp [find_generated_transcript, hm, hft], hg, ?_⟩
      simp only [List.contains_cons, Bool.or_eq_true]
      exact Or.inr hc

/-- Mapping the `text` projection over segments freshly built from lines
recovers the lines. -/
theorem map_text_of_mk (l : List String) :
    List.map ((fun x : Segment => x.text) ∘ fun line => ({ text := line } : Segment)) l = l := by
  induction l with
  | nil => rfl
  | cons a as ih => simp only [List.map_cons, Function.comp, ih]

/-! ## Claim C1: English track served directly -/

/-- Claim C1, amended: for a video whose track list contains an English
track (manual or generated) and whose selected English track has a
nonempty segment list, `load` returns `{transcript}` equal to the `text`
fields of that track's segments joined with single spaces, and
`gemini.generate_content` is never invoked on that call.  (The amendment
adds the nonempty-segments condition forced by `C1_counterexample`.) -/
theorem C1_english_track_uses_raw_segments (env : YtEnv) (url v : String)
    (tracks : List CaptionTrack)
    (hex : env.extract_video_id url = .ok v)
    (hv : v.isEmpty = false)
    (hls : env.list_transcripts v = .ok tracks)
    (hen : (tracks.any fun t => t.language_code == "en") = true)
    (hne : ((find_transcript tracks ["en"]).all fun t => !t.segments.isEmpty) = true) :
    ∃ t, find_transcript tracks ["en"] = some t ∧ t.language_code = "en" ∧
      YoutubeTranscriptLoader.load env url =
        (.ok { transcript := pyJoin " " (t.segments.map (·.text)) },
         [YtEvent.listTranscripts v]) ∧
      ∀ p, YtEvent.generateContent p ∉ (YoutubeTranscriptLoader.load env url).2 := by
  obtain ⟨t, hft, hlang⟩ := find_transcript_en_some tracks hen
  rw [hft] at hne
  have hseg : t.segments.isEmpty = false := by simpa [Option.all] using hne
  have hload : YoutubeTranscriptLoader.load env url =
      (.ok { transcript := pyJoin " " (t.segments.map (·.text)) },
       [YtEvent.listTranscripts v]) := by
    simp [YoutubeTranscriptLoader.load, get_video_id, hex, pyTruthyStr, hv,
      fetch_transcript, hls, hft, pyFalsyOptList, hseg]
  refine ⟨t, hft, hlang, hload, ?_⟩
  rw [hload]
  intro p
  simp

/-- Claim C1 witness: the amended theorem applied to the concrete
environment `c1Env`. -/
theorem C1_witness :
    ∃ t, find_transcript [c1Track] ["en"] = some t ∧ t.language_code = "en" ∧
      YoutubeTranscriptLoader.load c1Env "https://youtu.be/dQw4w9WgXcQ" =
        (.ok { transcript := pyJoin " " (t.segments.map (·.text)) },
         [YtEvent.listTranscripts "dQw4w9WgXcQ"]) ∧
      ∀ p, YtEvent.generateContent p ∉
        (YoutubeTranscriptLoader.load c1Env "https://youtu.be/dQw4w9WgXcQ").2 :=
  C1_english_track_uses_raw_segments c1Env "https://youtu.be/dQw4w9WgXcQ"
    "dQw4w9WgXcQ" [c1Track] rfl (by decide) rfl (by decide) (by decide)

/-- Claim C1 counterexample: a video whose caption track list contains an
English track (with zero fetched segments); the claim as stated says
`load` returns `{transcript}` (here the empty join), but the code raises
`TranscriptionError("No transcript available")`. -/
theorem C1_counterexample :
    (([{ language_code := "en", is_generated := true, segments := [] }] :
        List CaptionTrack).any fun t => t.language_code == "en") = true ∧
    c1CexEnv.list_transcripts "vid00000001" =
      .ok [{ language_code := "en", is_generated := true, segments := [] }] ∧
    YoutubeTranscriptLoader.load c1CexEnv "https://youtu.be/vid00000001" =
      (.error (.transcriptionError "No transcript available"),
       [YtEvent.listTranscripts "vid00000001"]) := by
  refine ⟨by decide, rfl, by decide⟩

/-! ## Claim C2: generated-track fallback with translation -/

/-- Claim C2, amended: for a video with no English track but with a
generated track matching the ordered candidate list
`[en, ja, ko, es, fr, de, hi]`, `load` invokes the translation adapter
exactly once, with the prompt `"Translate the following transcript into
English:\n"` followed by the source segment texts joined with single
spaces; on adapter success whose output contains at least one non-blank
line, it returns a transcript built only from the non-blank lines of the
adapter's output, the rebuilt segments carrying no start/duration timing
fields.  (The amendment adds the at-least-one-non-blank-line condition
forced by `C2_counterexample`.) -/
theorem C2_generated_track_translated (env : YtEnv) (url v : String)
    (tracks : List CaptionTrack) (t : CaptionTrack) (out : String)
    (hex : env.extract_video_id url = .ok v)
    (hv : v.isEmpty = false)
    (hls : env.list_transcripts v = .ok tracks)
    (hnoen : (tracks.any fun tr => tr.language_code == "en") = false)
    (hgen : find_generated_transcript tracks candidate_languages = some t)
    (hok : env.generate_content
        (translation_instruction ++ pyJoin " " (t.segments.map (·.text))) = .ok out)
    (hnb : ((pySplit (pyStrip out) '\n').filter fun line => !(pyStrip line).isEmpty) ≠ []) :
    YoutubeTranscriptLoader.load env url =
      (.ok { transcript :=
            pyJoin " " ((pySplit (pyStrip out) '\n').filter fun line => !(pyStrip line).isEmpty) },
       [YtEvent.listTranscripts v,
        YtEvent.generateContent
          (translation_instruction ++ pyJoin " " (t.segments.map (·.text)))]) ∧
    ∃ segs, (fetch_transcript env v).1 = some segs ∧
      segs.map (·.text) =
        ((pySplit (pyStrip out) '\n').filter fun line => !(pyStrip line).isEmpty) ∧
      ∀ s ∈ segs, s.start = none ∧ s.duration = none := by
  have hfen := find_transcript_en_none tracks hnoen
  have htr : translate_transcript env t.segments =
      (some (((pySplit (pyStrip out) '\n').filter
          fun line => !(pyStrip line).isEmpty).map fun line => { text := line }),
       [.generateContent (translation_instruction ++ pyJoin " " (t.segments.map (·.text)))]) := by
    simp [translate_transcript, hok]
  have hfetch : fetch_transcript env v =
      (some (((pySplit (pyStrip out) '\n').filter
          fun line => !(pyStrip line).isEmpty).map fun line => ({ text := line } : Segment)),
       [.listTranscripts v,
        .generateContent (translation_instruction ++ pyJoin " " (t.segments.map (·.text)))]) := by
    simp [fetch_transcript, hls, hfen, handle_non_english_transcript, hgen, htr]
  have hne2 : (((pySplit (pyStrip out) '\n').filter
      fun line => !(pyStrip line).isEmpty).map fun line => ({ text := line } : Segment)).isEmpty
      = false := by
    cases hl : (pySplit (pyStrip out) '\n').filter fun line => !(pyStrip line).isEmpty with
    | nil => exact absurd hl hnb
    | cons a as => simp [hl]
  refine ⟨?_, ?_⟩
  · simp [YoutubeTranscriptLoader.load, get_video_id, hex, pyTruthyStr, hv, hfetch,
      pyFalsyOptList, hne2, List.map_map, map_text_of_mk]
  · refine ⟨((pySplit (pyStrip out) '\n').filter
      fun line => !(pyStrip line).isEmpty).map fun line => { text := line },
      by rw [hfetch], ?_, ?_⟩
    · simp [List.map_map, map_text_of_mk]
    · intro s hs
      simp only [List.mem_map] at hs
      obtain ⟨line, -, rfl⟩ := hs
      exact ⟨rfl, rfl⟩

/-- Claim C2 witness: the amended theorem applied to the concrete
environment `c2Env`, whose adapter answers `"Hello world\n\nGoodbye"`. -/
theorem C2_witness :
    YoutubeTranscriptLoader.load c2Env "https://youtu.be/vidES000001" =
      (.ok { transcript :=
            pyJoin " " ((pySplit (pyStrip "Hello world\n\nGoodbye") '\n').filter
              fun line => !(pyStrip line).isEmpty) },
       [YtEvent.listTranscripts "vidES000001",
        YtEvent.generateContent
          (translation_instruction ++ pyJoin " " (c2Track.segments.map (·.text)))]) ∧
    ∃ segs, (fetch_transcript c2Env "vidES000001").1 = some segs ∧
      segs.map (·.text) =
        ((pySplit (pyStrip "Hello world\n\nGoodbye") '\n').filter
          fun line => !(pyStrip line).isEmpty) ∧
      ∀ s ∈ segs, s.start = none ∧ s.duration = none :=
  C2_generated_track_translated c2Env "https://youtu.be/vidES000001" "vidES000001"
    [c2Track] c2Track "Hello world\n\nGoodbye" rfl (by decide) rfl (by decide)
    (by decide) rfl (by decide)

/-- Claim C2 counterexample: a video with only a generated Japanese track
whose translation succeeds but returns whitespace only; the claim as
stated says `load` returns a transcript built from the non-blank lines
(here none), but the code raises
`TranscriptionError("No transcript available")`. -/
theorem C2_counterexample :
    (([c2CexTrack]).any fun t => t.language_code == "en") = false ∧
    find_generated_transcript [c2CexTrack] candidate_languages = some c2CexTrack ∧
    c2CexEnv.generate_content
      (translation_instruction ++ pyJoin " " (c2CexTrack.segments.map (·.text))) = .ok "  " ∧
    YoutubeTranscriptLoader.load c2CexEnv "https://youtu.be/vidJA000001" =
      (.error (.transcriptionError "No transcript available"),
       [YtEvent.listTranscripts "vidJA000001",
        YtEvent.generateContent (translation_instruction ++ "konnichiwa")]) := by
  refine ⟨by decide, by decide, rfl, by decide⟩

/-! ## Claim C3: all failure paths collapse to one raised error -/

/-- Claim C3: for a video where captions are disabled, where no track is
found (neither preferred English nor a generated candidate), or where the
translation step fails, `load` raises `TranscriptionError` with message
exactly `"No transcript available"`; and structurally, every `load`
outcome is either a success, `DocumentLoaderError("Invalid YouTube URL")`,
or `TranscriptionError("No transcript available")` — the internal
pipeline only ever signals failure through the `none` sentinel, which the
outer `load` alone converts into the raised error. -/
theorem C3_failure_paths :
    (∀ (env : YtEnv) (url v : String),
      env.extract_video_id url = .ok v → v.isEmpty = false →
      env.list_transcripts v = .disabled →
      (YoutubeTranscriptLoader.load env url).1 =
        .error (.transcriptionError "No transcript available")) ∧
    (∀ (env : YtEnv) (url v : String) (tracks : List CaptionTrack),
      env.extract_video_id url = .ok v → v.isEmpty = false →
      env.list_transcripts v = .ok tracks →
      find_transcript tracks ["en"] = none →
      find_generated_transcript tracks candidate_languages = none →
      (YoutubeTranscriptLoader.load env url).1 =
        .error (.transcriptionError "No transcript available")) ∧
    (∀ (env : YtEnv) (url v : String) (tracks : List CaptionTrack) (t : CaptionTrack),
      env.extract_video_id url = .ok v → v.isEmpty = false →
      env.list_transcripts v = .ok tracks →
      find_transcript tracks ["en"] = none →
      find_generated_transcript tracks candidate_languages = some t →
      env.generate_content
        (translation_instruction ++ pyJoin " " (t.segments.map (·.text))) = .error () →
      (YoutubeTranscriptLoader.load env url).1 =
        .error (.transcriptionError "No transcript available")) ∧
    (∀ (env : YtEnv) (url : String),
      (YoutubeTranscriptLoader.load env url).1 =
        .error (.documentLoaderError "Invalid YouTube URL") ∨
      (YoutubeTranscriptLoader.load env url).1 =
        .error (.transcriptionError "No transcript available") ∨
      ∃ r, (YoutubeTranscriptLoader.load env url).1 = .ok r) := by
  refine ⟨?_, ?_, ?_, ?_⟩
  · intro env url v hex hv hls
    simp [YoutubeTranscriptLoader.load, get_video_id, hex, pyTruthyStr, hv,
      fetch_transcript, hls, pyFalsyOptList]
  · intro env url v tracks hex hv hls hfen hfgen
    simp [YoutubeTranscriptLoader.load, get_video_id, hex, pyTruthyStr, hv,
      fetch_transcript, hls, hfen, handle_non_english_transcript, hfgen, pyFalsyOptList]
  · intro env url v tracks t hex hv hls hfen hfgen hge
    simp [YoutubeTranscriptLoader.load, get_video_id, hex, pyTruthyStr, hv,
      fetch_transcript, hls, hfen, handle_non_english_transcript, hfgen,
      translate_transcript, hge, pyFalsyOptList]
  · intro env url
    cases h1 : pyTruthyStr (get_video_id env url) with
    | false =>
      left
      simp [YoutubeTranscriptLoader.load, h1]
    | true =>
      cases h2 : pyFalsyOptList (fetch_transcript env ((get_video_id env url).getD "")).1 with
      | true =>
        right; left
        simp [YoutubeTranscriptLoader.load, h1, h2]
      | false =>
        refine Or.inr (Or.inr ⟨{ transcript := pyJoin " " (((fetch_transcript env ((get_video_id env url).getD "")).1.getD []).map (·.text)) }, ?_⟩)
        simp [YoutubeTranscriptLoader.load, h1, h2]

/-- Claim C3 witness: the three failure conjuncts applied to the concrete
environments `c3DisabledEnv`, `c3NoTrackEnv` and `c3TransFailEnv`, and
the structural conjunct applied to `c3DisabledEnv`. -/
theorem C3_witness :
    (YoutubeTranscriptLoader.load c3DisabledEnv "https://youtu.be/vidDIS00001").1 =
      .error (.transcriptionError "No transcript available") ∧
    (YoutubeTranscriptLoader.load c3NoTrackEnv "https://youtu.be/vidFR000001").1 =
      .error (.transcriptionError "No transcript available") ∧
    (YoutubeTranscriptLoader.load c3TransFailEnv "https://youtu.be/vidKO000001").1 =
      .error (.transcriptionError "No transcript available") ∧
    ((YoutubeTranscriptLoader.load c3DisabledEnv "u").1 =
        .error (.documentLoaderError "Invalid YouTube URL") ∨
      (YoutubeTranscriptLoader.load c3DisabledEnv "u").1 =
        .error (.transcriptionError "No transcript available") ∨
      ∃ r, (YoutubeTranscriptLoader.load c3DisabledEnv "u").1 = .ok r) :=
  ⟨C3_failure_paths.1 c3DisabledEnv "https://youtu.be/vidDIS00001" "vidDIS00001"
      rfl (by decide) rfl,
   C3_failure_paths.2.1 c3NoTrackEnv "https://youtu.be/vidFR000001" "vidFR000001"
      [{ language_code := "fr", is_generated := false,
         segments := [{ text := "bonjour", start := some 0, duration := some 1 }] }]
      rfl (by decide) rfl (by decide) (by decide),
   C3_failure_paths.2.2.1 c3TransFailEnv "https://youtu.be/vidKO000001" "vidKO000001"
      [{ language_code := "ko", is_generated := true,
         segments := [{ text := "annyeong", start := some 0, duration := some 1 }] }]
      { language_code := "ko", is_generated := true,
        segments := [{ text := "annyeong", start := some 0, duration := some 1 }] }
      rfl (by decide) rfl (by decide) (by decide) rfl,
   C3_failure_paths.2.2.2 c3DisabledEnv "u"⟩

/-! ## Claim C4: malformed URL rejected before any network call -/

/-- Claim C4: for every URL from which the identifier extractor either
raises or yields the empty identifier, `load` raises
`DocumentLoaderError("Invalid YouTube URL")` and the event trace is empty:
neither the caption-listing service nor the generative model is ever
invoked. -/
theorem C4_invalid_url (env : YtEnv) (url : String)
    (h : env.extract_video_id url = .error () ∨ env.extract_video_id url = .ok "") :
    YoutubeTranscriptLoader.load env url =
      (.error (.documentLoaderError "Invalid YouTube URL"), []) := by
  have he : ("" : String).isEmpty = true := rfl
  rcases h with h | h <;>
    simp [YoutubeTranscriptLoader.load, get_video_id, h, pyTruthyStr, he]

/-- Claim C4 witness: the theorem applied to an extractor that raises and
to one that yields the empty identifier. -/
theorem C4_witness :
    YoutubeTranscriptLoader.load c4RaiseEnv "not a url" =
      (.error (.documentLoaderError "Invalid YouTube URL"), []) ∧
    YoutubeTranscriptLoader.load c4EmptyEnv "https://youtu.be/" =
      (.error (.documentLoaderError "Invalid YouTube URL"), []) :=
  ⟨C4_invalid_url c4RaiseEnv "not a url" (Or.inl rfl),
   C4_invalid_url c4EmptyEnv "https://youtu.be/" (Or.inr rfl)⟩

/-! ## Claim C5: invalid URL scheme rejected without side effects -/

/-- Claim C5: for every url that does not start with `http://` or
`https://`, `WebpageLoader.load` raises
`DocumentLoaderError("Invalid URL format")`, the sink file content is
unchanged, and no fetch is performed. -/
theorem C5_invalid_scheme (env : WebEnv) (url : String) (sink : Option String)
    (h : (pyStartsWith url "http://" || pyStartsWith url "https://") = false) :
    WebpageLoader.load env url sink =
      (.error (.documentLoaderError "Invalid URL format"), sink, []) := by
  simp [WebpageLoader.load, h]

/-- Claim C5 witness: the theorem applied to `"ftp://example.com"` with a
pre-existing sink content, which is preserved. -/
theorem C5_witness :
    WebpageLoader.load c5WebEnv "ftp://example.com" (some "prior content\n\n") =
      (.error (.documentLoaderError "Invalid URL format"),
       some "prior content\n\n", []) :=
  C5_invalid_scheme c5WebEnv "ftp://example.com" (some "prior content\n\n") (by decide)

/-! ## Claim C6: successful load strips, returns and overwrites the sink -/

/-- Claim C6: every successful `WebpageLoader.load` returns `{content}`
holding the first fetched document's content stripped of surrounding
whitespace and replaces the sink content with exactly that stripped
content followed by two newlines, independently of the prior sink
content; hence after two successful calls the sink holds only the second
call's content. -/
theorem C6_success_overwrites_sink :
    (∀ (env : WebEnv) (url : String) (sink : Option String) (d : Doc) (rest : List Doc),
      (pyStartsWith url "http://" || pyStartsWith url "https://") = true →
      env.fetch url = .ok (d :: rest) →
      WebpageLoader.load env url sink =
        (.ok { content := pyStrip d.page_content },
         some (pyStrip d.page_content ++ "\n\n"), [url])) ∧
    (∀ (env1 env2 : WebEnv) (url1 url2 : String) (sink0 : Option String)
      (d1 d2 : Doc) (r1 r2 : List Doc),
      (pyStartsWith url1 "http://" || pyStartsWith url1 "https://") = true →
      (pyStartsWith url2 "http://" || pyStartsWith url2 "https://") = true →
      env1.fetch url1 = .ok (d1 :: r1) →
      env2.fetch url2 = .ok (d2 :: r2) →
      (WebpageLoader.load env2 url2 (WebpageLoader.load env1 url1 sink0).2.1).2.1 =
        some (pyStrip d2.page_content ++ "\n\n")) := by
  have key : ∀ (env : WebEnv) (url : String) (sink : Option String) (d : Doc) (rest : List Doc),
      (pyStartsWith url "http://" || pyStartsWith url "https://") = true →
      env.fetch url = .ok (d :: rest) →
      WebpageLoader.load env url sink =
        (.ok { content := pyStrip d.page_content },
         some (pyStrip d.page_content ++ "\n\n"), [url]) := by
    intro env url sink d rest h hf
    simp [WebpageLoader.load, h, hf]
  refine ⟨key, ?_⟩
  intro env1 env2 url1 url2 sink0 d1 d2 r1 r2 h1 h2 hf1 hf2
  rw [key env1 url1 sink0 d1 r1 h1 hf1, key env2 url2 _ d2 r2 h2 hf2]

/-- Claim C6 witness: two successive loads against different pages; the
final sink holds only the second page's stripped content. -/
theorem C6_witness :
    WebpageLoader.load c6WebEnvA "https://example.com/a" none =
      (.ok { content := pyStrip " first page " },
       some (pyStrip " first page " ++ "\n\n"), ["https://example.com/a"]) ∧
    (WebpageLoader.load c6WebEnvB "https://example.com/b"
        (WebpageLoader.load c6WebEnvA "https://example.com/a" none).2.1).2.1 =
      some (pyStrip "second page" ++ "\n\n") :=
  ⟨C6_success_overwrites_sink.1 c6WebEnvA "https://example.com/a" none
      { page_content := " first page " } [] (by decide) rfl,
   C6_success_overwrites_sink.2 c6WebEnvA c6WebEnvB "https://example.com/a"
      "https://example.com/b" none { page_content := " first page " }
      { page_content := "second page" } [] [] (by decide) (by decide) rfl rfl⟩

/-! ## Claim C7: AudioLoader requires a credential at construction -/

/-- Claim C7: constructing `AudioLoader` with the `api_key` parameter
absent or empty and the `ASSEMBLY_API_KEY` configuration absent raises
`DocumentLoaderError("Assembly AI API key not found")` at construction
time; with a credential available (the resolved key truthy), construction
succeeds. -/
theorem C7_audio_key_required :
    (∀ k : Option String, pyTruthyStr k = false →
      AudioLoader.init k none =
        .error (.documentLoaderError "Assembly AI API key not found")) ∧
    (∀ k e : Option String, pyTruthyStr (pyOrStr k e) = true →
      AudioLoader.init k e = .ok { api_key := pyOrStr k e }) := by
  constructor
  · intro k hk
    unfold AudioLoader.init pyOrStr
    simp only [hk]
    simp [pyTruthyStr]
  · intro k e hke
    simp [AudioLoader.init, hke]

/-- Claim C7 witness: absent and empty parameters with absent
configuration fail; a parameter credential or a configuration credential
succeeds. -/
theorem C7_witness :
    AudioLoader.init none none =
      .error (.documentLoaderError "Assembly AI API key not found") ∧
    AudioLoader.init (some "") none =
      .error (.documentLoaderError "Assembly AI API key not found") ∧
    AudioLoader.init (some "assembly-key-123") none =
      .ok { api_key := pyOrStr (some "assembly-key-123") none } ∧
    AudioLoader.init none (some "assembly-key-456") =
      .ok { api_key := pyOrStr none (some "assembly-key-456") } :=
  ⟨C7_audio_key_required.1 none rfl,
   C7_audio_key_required.1 (some "") (by decide),
   C7_audio_key_required.2 (some "assembly-key-123") none (by decide),
   C7_audio_key_required.2 none (some "assembly-key-456") (by decide)⟩

/-! ## Claim C8: TextDocumentLoader dispatches purely on suffix -/

/-- Claim C8: `TextDocumentLoader.load` dispatches purely on the filename
suffix: a `.pdf` path returns `{pages, page_count}` with `page_count`
the length of the pages sequence; any other path returns `{content}`
from whole-document extraction; and any underlying parse failure is
re-raised as `DocumentLoaderError` with the original message embedded. -/
theorem C8_suffix_dispatch (env : DocEnv) (file_path : String) :
    (pyEndsWith file_path ".pdf" = true →
      (∀ pages, env.pdf_load_and_split file_path = .ok pages →
        TextDocumentLoader.load env file_path = .ok (.pdfResult pages pages.length)) ∧
      (∀ e, env.pdf_load_and_split file_path = .error e →
        TextDocumentLoader.load env file_path =
          .error (.documentLoaderError ("Error loading document: " ++ e)))) ∧
    (pyEndsWith file_path ".pdf" = false →
      (∀ data, env.text_loader_load file_path = .ok data →
        TextDocumentLoader.load env file_path = .ok (.textResult data)) ∧
      (∀ e, env.text_loader_load file_path = .error e →
        TextDocumentLoader.load env file_path =
          .error (.documentLoaderError ("Error loading document: " ++ e)))) := by
  constructor
  · intro hp
    constructor
    · intro pages hok
      simp [TextDocumentLoader.load, hp, hok]
    · intro e herr
      simp [TextDocumentLoader.load, hp, herr]
  · intro hp
    constructor
    · intro data hok
      simp [TextDocumentLoader.load, hp, hok]
    · intro e herr
      simp [TextDocumentLoader.load, hp, herr]

/-- Claim C8 witness: the four dispatch/wrapping cases at concrete
paths and environments. -/
theorem C8_witness :
    TextDocumentLoader.load c8DocEnv "notes.pdf" =
      .ok (.pdfResult [{ page_content := "p1" }, { page_content := "p2" }] 2) ∧
    TextDocumentLoader.load c8DocEnv "notes.txt" =
      .ok (.textResult [{ page_content := "plain text" }]) ∧
    TextDocumentLoader.load c8FailDocEnv "notes.pdf" =
      .error (.documentLoaderError ("Error loading document: " ++ "bad pdf")) ∧
    TextDocumentLoader.load c8FailDocEnv "notes.txt" =
      .error (.documentLoaderError ("Error loading document: " ++ "bad text")) :=
  ⟨((C8_suffix_dispatch c8DocEnv "notes.pdf").1 (by decide)).1
      [{ page_content := "p1" }, { page_content := "p2" }] rfl,
   ((C8_suffix_dispatch c8DocEnv "notes.txt").2 (by decide)).1
      [{ page_content := "plain text" }] rfl,
   ((C8_suffix_dispatch c8FailDocEnv "notes.pdf").1 (by decide)).2 "bad pdf" rfl,
   ((C8_suffix_dispatch c8FailDocEnv "notes.txt").2 (by decide)).2 "bad text" rfl⟩

/-! ## Claim C9: the translation step never raises -/

/-- Claim C9: for every input, the translation step returns either a
translated segment list or the sentinel `None`; a failing
generative-model call yields `None` rather than propagating, and a
successful one yields exactly the non-blank-line rebuild of its output. -/
theorem C9_translate_never_raises (env : YtEnv) (ts : List Segment) :
    ((translate_transcript env ts).1 = none ∨
      ∃ segs, (translate_transcript env ts).1 = some segs) ∧
    (env.generate_content
        (translation_instruction ++ pyJoin " " (ts.map (·.text))) = .error () →
      (translate_transcript env ts).1 = none) ∧
    (∀ out, env.generate_content
        (translation_instruction ++ pyJoin " " (ts.map (·.text))) = .ok out →
      (translate_transcript env ts).1 =
        some (((pySplit (pyStrip out) '\n').filter
          fun line => !(pyStrip line).isEmpty).map fun line => { text := line })) := by
  refine ⟨?_, ?_, ?_⟩
  · cases h : (translate_transcript env ts).1 with
    | none => exact Or.inl rfl
    | some segs => exact Or.inr ⟨segs, rfl⟩
  · intro herr
    simp [translate_transcript, herr]
  · intro out hok
    simp [translate_transcript, hok]

/-- Claim C9 witness: the theorem applied to a failing and to a
succeeding generative model on a one-segment transcript. -/
theorem C9_witness :
    ((translate_transcript c9OkEnv [{ text := "hola" }]).1 = none ∨
      ∃ segs, (translate_transcript c9OkEnv [{ text := "hola" }]).1 = some segs) ∧
    (translate_transcript c9FailEnv [{ text := "hola" }]).1 = none ∧
    (translate_transcript c9OkEnv [{ text := "hola" }]).1 =
      some (((pySplit (pyStrip " Hello\nWorld ") '\n').filter
        fun line => !(pyStrip line).isEmpty).map fun line => { text := line }) :=
  ⟨(C9_translate_never_raises c9OkEnv [{ text := "hola" }]).1,
   (C9_translate_never_raises c9FailEnv [{ text := "hola" }]).2.1 rfl,
   (C9_translate_never_raises c9OkEnv [{ text := "hola" }]).2.2 " Hello\nWorld " rfl⟩

/-! ## Claim C10: an empty segment sequence is treated as absence -/

/-- Claim C10: if the internal pipeline yields an empty segment sequence
rather than `None` — in general, and in particular for a fetched English
track with zero segments, or for a successful translation whose output
has only blank lines — `load` raises
`TranscriptionError("No transcript available")`. -/
theorem C10_empty_sequence_as_absence :
    (∀ (env : YtEnv) (url v : String),
      env.extract_video_id url = .ok v → v.isEmpty = false →
      (fetch_transcript env v).1 = some [] →
      (YoutubeTranscriptLoader.load env url).1 =
        .error (.transcriptionError "No transcript available")) ∧
    (∀ (env : YtEnv) (url v : String) (tracks : List CaptionTrack) (t : CaptionTrack),
      env.extract_video_id url = .ok v → v.isEmpty = false →
      env.list_transcripts v = .ok tracks →
      find_transcript tracks ["en"] = some t → t.segments = [] →
      (YoutubeTranscriptLoader.load env url).1 =
        .error (.transcriptionError "No transcript available")) ∧
    (∀ (env : YtEnv) (url v : String) (tracks : List CaptionTrack)
      (t : CaptionTrack) (out : String),
      env.extract_video_id url = .ok v → v.isEmpty = false →
      env.list_transcripts v = .ok tracks →
      find_transcript tracks ["en"] = none →
      find_generated_transcript tracks candidate_languages = some t →
      env.generate_content
        (translation_instruction ++ pyJoin " " (t.segments.map (·.text))) = .ok out →
      ((pySplit (pyStrip out) '\n').filter fun line => !(pyStrip line).isEmpty) = [] →
      (YoutubeTranscriptLoader.load env url).1 =
        .error (.transcriptionError "No transcript available")) := by
  refine ⟨?_, ?_, ?_⟩
  · intro env url v hex hv hfo
    simp [YoutubeTranscriptLoader.load, get_video_id, hex, pyTruthyStr, hv, hfo,
      pyFalsyOptList]
  · intro env url v tracks t hex hv hls hft hseg
    simp [YoutubeTranscriptLoader.load, get_video_id, hex, pyTruthyStr, hv,
      fetch_transcript, hls, hft, hseg, pyFalsyOptList]
  · intro env url v tracks t out hex hv hls hfen hfgen hok hblank
    simp [YoutubeTranscriptLoader.load, get_video_id, hex, pyTruthyStr, hv,
      fetch_transcript, hls, hfen, handle_non_english_transcript, hfgen,
      translate_transcript, hok, hblank, pyFalsyOptList]

/-- Claim C10 witness: the zero-segment English track and the blank-only
translation, both raising `TranscriptionError("No transcript available")`. -/
theorem C10_witness :
    (YoutubeTranscriptLoader.load c10ZeroSegEnv "https://youtu.be/vidZERO0001").1 =
      .error (.transcriptionError "No transcript available") ∧
    (YoutubeTranscriptLoader.load c10BlankEnv "https://youtu.be/vidHI000001").1 =
      .error (.transcriptionError "No transcript available") :=
  ⟨C10_empty_sequence_as_absence.2.1 c10ZeroSegEnv "https://youtu.be/vidZERO0001"
      "vidZERO0001"
      [{ language_code := "en", is_generated := false, segments := [] }]
      { language_code := "en", is_generated := false, segments := [] }
      rfl (by decide) rfl (by decide) rfl,
   C10_empty_sequence_as_absence.2.2 c10BlankEnv "https://youtu.be/vidHI000001"
      "vidHI000001" [c10BlankTrack] c10BlankTrack "\n \n"
      rfl (by decide) rfl (by decide) (by decide) rfl (by decide)⟩
